import Mathlib

/-!
Verification development for the conversation orchestration and tool-invocation
core of the AI-Chat-Bot chat-service.

The Python sources are shallowly embedded as Lean definitions:

* `engine/models.py`               → `Conversation`, `ChatMessage`, `MCPServer`, `User`, `DB`
* `engine/conversation_crud.py`    → `get_conversation`, `create_message`,
                                     `get_conversation_messages`, `get_recent_messages`,
                                     `end_conversation`
* `engine/mcp_server_crud.py`      → `get_mcp_server`, `get_user_mcp_servers`
* `services/mcp_tools_service.py`  → `discover_server_tools`, `get_available_tools`, `call_tool`
* `services/openai_service.py`     → `send_message`, `get_openai_service`
* `websocket/chat_handler.py`      → `ConnectionManager`, `receive_loop`
* `api/routes.py`                  → `reconnect_to_conversation`

Database rows live in ordered lists; `DB.now` is a logical clock standing for
the SQL `func.now()` default, ticked on every write so creation timestamps are
strictly increasing.  Network and model-provider effects are passed in as
explicit environment values describing the outcome of each external call.
Python exceptions are modelled with `Except`; `Option` models nullable fields.
-/

namespace ChatService

/-- Python `str(x)` on an optional value, as used by `str(server.user_id)`
and friends: `None` prints as the string `"None"`. -/
def pyStr : Option String → String
  | none => "None"
  | some s => s

/-- Row of the `conversations` table (`engine/models.py`).
`status` is a plain `String(50)` column with values among
`"active"`, `"ended"`, `"archived"`; it is NOT an enum-typed column. -/
structure Conversation where
  id : String
  user_id : Option String
  title : Option String
  status : String
  ended_at : Option Nat
  deriving Repr, DecidableEq

/-- Metadata attached to an assistant message by the MCP branch of
`send_message` (the `response_metadata` dict, restricted to the keys the
claims mention). -/
structure MetaInfo where
  mcp_tool_used : Option Bool
  tool_name : Option String
  server_id : Option String
  deriving Repr, DecidableEq

/-- Row of the `chat_messages` table (`engine/models.py`).  `timestamp` is the
creation time assigned by the database clock. -/
structure ChatMessage where
  id : String
  conversation_id : String
  role : String
  content : Option String
  timestamp : Nat
  tokens_used : Option Nat
  meta : Option MetaInfo
  deriving Repr, DecidableEq

/-- Row of the `mcp_servers` table (`engine/models.py`). -/
structure MCPServer where
  id : String
  user_id : String
  name : String
  server_url : String
  api_key : Option String
  is_active : Bool
  deriving Repr, DecidableEq

/-- Row of the `users` table, restricted to the fields `api/routes.py` reads. -/
structure User where
  id : String
  username : String
  deriving Repr, DecidableEq

/-- The relational store plus its clock. -/
structure DB where
  conversations : List Conversation
  messages : List ChatMessage
  mcp_servers : List MCPServer
  users : List User
  now : Nat
  deriving Repr, DecidableEq

/-- `ORDER BY timestamp ASC` comparison on messages. -/
def msgLE (a b : ChatMessage) : Prop := a.timestamp ≤ b.timestamp

instance : DecidableRel msgLE := fun a b => Nat.decLe a.timestamp b.timestamp

instance : IsTotal ChatMessage msgLE := ⟨fun a b => Nat.le_total a.timestamp b.timestamp⟩

instance : IsTrans ChatMessage msgLE := ⟨fun _ _ _ hab hbc => Nat.le_trans hab hbc⟩

/-- `ORDER BY timestamp DESC` comparison on messages. -/
def msgGE (a b : ChatMessage) : Prop := b.timestamp ≤ a.timestamp

instance : DecidableRel msgGE := fun a b => Nat.decLe b.timestamp a.timestamp

instance : IsTotal ChatMessage msgGE := ⟨fun a b => Nat.le_total b.timestamp a.timestamp⟩

instance : IsTrans ChatMessage msgGE := ⟨fun _ _ _ hab hbc => Nat.le_trans hbc hab⟩

/-- `conversation_crud.get_conversation` /
`database_utils.get_entity_by_id(db, Conversation, id)`: first row whose
primary key matches. -/
def get_conversation (db : DB) (conversation_id : String) : Option Conversation :=
  db.conversations.find? (fun c => c.id == conversation_id)

/-- `conversation_crud.get_conversation_with_messages`: same lookup as
`get_conversation` (messages come through the ORM relationship). -/
def get_conversation_with_messages (db : DB) (conversation_id : String) : Option Conversation :=
  get_conversation db conversation_id

/-- `user_crud.get_user` (`get_entity_by_id(db, User, id)`). -/
def get_user (db : DB) (user_id : String) : Option User :=
  db.users.find? (fun u => u.id == user_id)

/-- `hash_utils.generate_message_hash(conversation_id, content, role)`: a
deterministic digest of the three inputs, modelled as their tagged
concatenation (it is a pure function of exactly these arguments). -/
def generate_message_hash (conversation_id : String) (content : Option String)
    (role : String) : String :=
  "h:" ++ conversation_id ++ ":" ++ role ++ ":" ++ pyStr content

/-- `conversation_crud.create_message`: append a new row; the database stamps
`timestamp` with the current clock. -/
def create_message (db : DB) (conversation_id role : String) (content : Option String)
    (tokens_used : Option Nat) (meta : Option MetaInfo) : ChatMessage × DB :=
  let m : ChatMessage :=
    { id := generate_message_hash conversation_id content role
      conversation_id := conversation_id
      role := role
      content := content
      timestamp := db.now
      tokens_used := tokens_used
      meta := meta }
  (m, { db with messages := db.messages ++ [m], now := db.now + 1 })

/-- The SQL filter of `conversation_crud.get_conversation_messages`: rows of
one conversation, optionally restricted to one role. -/
def conversationMessagesQuery (db : DB) (conversation_id : String)
    (role : Option String) : List ChatMessage :=
  db.messages.filter (fun m =>
    m.conversation_id == conversation_id &&
      (match role with
       | none => true
       | some r => m.role == r))

/-- `conversation_crud.get_conversation_messages(db, conversation_id, skip,
limit, role)`: filter, `ORDER BY timestamp ASC`, then `OFFSET skip LIMIT lim`.
The Python defaults are `skip=0, limit=100, role=None`; callers relying on the
defaults appear below with the literal arguments `0 100 none`. -/
def get_conversation_messages (db : DB) (conversation_id : String)
    (skip lim : Nat) (role : Option String) : List ChatMessage :=
  (((List.insertionSort msgLE (conversationMessagesQuery db conversation_id role)).drop
    skip).take lim)

/-- `conversation_crud.get_recent_messages(db, conversation_id, limit)`:
filter by conversation, `ORDER BY timestamp DESC LIMIT lim`, then
`messages.reverse()` back into chronological order. -/
def get_recent_messages (db : DB) (conversation_id : String) (lim : Nat) :
    List ChatMessage :=
  ((List.insertionSort msgGE (conversationMessagesQuery db conversation_id none)).take
    lim).reverse

/-- `conversation_crud.end_conversation`: look the row up; if present set
`status="ended"` and `ended_at=get_utc_now()` via `update_entity`.  There is no
check of the current status. -/
def end_conversation (db : DB) (conversation_id : String) : Option Conversation × DB :=
  match get_conversation db conversation_id with
  | none => (none, db)
  | some c =>
    let c2 := { c with status := "ended", ended_at := some db.now }
    (some c2,
      { db with
        conversations := db.conversations.map (fun x => if x.id == conversation_id then c2 else x)
        now := db.now + 1 })

/-- `conversation_crud.update_conversation` specialised to the one update the
reconnect route performs, `ConversationUpdate(status=...)` with
`exclude_unset=True`: only the status field changes. -/
def update_conversation_status (db : DB) (conversation_id : String) (status : String) :
    Option Conversation × DB :=
  match get_conversation db conversation_id with
  | none => (none, db)
  | some c =>
    let c2 := { c with status := status }
    (some c2,
      { db with
        conversations := db.conversations.map (fun x => if x.id == conversation_id then c2 else x) })

/-- `mcp_server_crud.get_mcp_server`: first row whose primary key matches. -/
def get_mcp_server (db : DB) (server_id : String) : Option MCPServer :=
  db.mcp_servers.find? (fun s => s.id == server_id)

/-- `mcp_server_crud.get_user_mcp_servers(db, user_id, skip, limit,
active_only)`: rows owned by the user, optionally restricted to active ones,
then `OFFSET skip LIMIT lim`.  Python defaults are `skip=0, limit=100`. -/
def get_user_mcp_servers (db : DB) (user_id : String) (skip lim : Nat)
    (active_only : Bool) : List MCPServer :=
  (((db.mcp_servers.filter (fun s => s.user_id == user_id)).filter
    (fun s => !active_only || s.is_active)).drop skip).take lim

/-- One tool entry of a provider's `tools/list` JSON-RPC reply; all fields are
read with `dict.get` and may be absent. -/
structure RemoteTool where
  name : Option String
  description : Option String
  params : List (String × String)
  deriving Repr, DecidableEq

/-- Parsed body of a `tools/list` HTTP response.  `jsonExn` stands for
`response.json()` raising; `toolsOk` for a body holding `result.tools`;
`badFormat` for a 200 body without that shape. -/
inductive ListBody where
  | jsonExn : ListBody
  | toolsOk (ts : List RemoteTool) : ListBody
  | badFormat : ListBody
  deriving Repr, DecidableEq

/-- Outcome of the `tools/list` network call to one provider: a transport
exception, or an HTTP response with a status code and a body. -/
inductive ListNet where
  | exn (msg : String) : ListNet
  | http (status : Nat) (body : ListBody) : ListNet
  deriving Repr, DecidableEq

/-- A tool in the internal format produced by `_discover_server_tools`. -/
structure DiscoveredTool where
  name : Option String
  description : Option String
  parameters : List (String × String)
  deriving Repr, DecidableEq

/-- `MCPToolsService._discover_server_tools`: issue `tools/list` to one
provider; on HTTP 200 with the expected shape, transform each tool into the
internal format; on any transport exception, JSON decoding failure, non-200
status or unexpected shape, return the empty list (every failure path of the
Python function ends in `return []` or is caught by its `except` clause). -/
def discover_server_tools (_server : MCPServer) (net : ListNet) : List DiscoveredTool :=
  match net with
  | .exn _ => []
  | .http status body =>
    if status == 200 then
      match body with
      | .jsonExn => []
      | .toolsOk ts => ts.map (fun t => { name := t.name, description := t.description, parameters := t.params })
      | .badFormat => []
    else []

/-- Whether a `tools/list` call counts as failed in the sense of the spec:
network error, non-200 status, or malformed response. -/
def listCallFailed : ListNet → Bool
  | .exn _ => true
  | .http status body =>
    status != 200 ||
      (match body with
       | .jsonExn => true
       | .badFormat => true
       | .toolsOk _ => false)

/-- One aggregate entry of `MCPToolsService.get_available_tools`. -/
structure ServerTools where
  server_id : String
  server_name : String
  server_url : String
  api_key : Option String
  tools : List DiscoveredTool
  deriving Repr, DecidableEq

/-- The `for server in servers` loop body of
`MCPToolsService.get_available_tools`: discover each provider's tools and
append an entry only when the discovered list is non-empty (`if server_tools:`).
A provider whose discovery failed contributes nothing and the loop continues
with the next provider. -/
def gather_available (env : String → ListNet) : List MCPServer → List ServerTools
  | [] => []
  | s :: rest =>
    let ts := discover_server_tools s (env s.id)
    if ts.isEmpty then gather_available env rest
    else
      { server_id := s.id, server_name := s.name, server_url := s.server_url
        api_key := s.api_key, tools := ts } :: gather_available env rest

/-- `MCPToolsService.get_available_tools`: enumerate the caller's active
providers (`get_user_mcp_servers(..., active_only=True)` with default
pagination) and aggregate per-provider discovery results.  `env` gives the
network outcome of the `tools/list` call per provider id. -/
def get_available_tools (db : DB) (user_id : String) (env : String → ListNet) :
    List ServerTools :=
  gather_available env (get_user_mcp_servers db user_id 0 100 true)

/-- The `result` object of a `tools/call` JSON-RPC reply: either it carries a
`content` array (whose items each optionally carry a `text` field), or it is
some other object. -/
inductive McpResult where
  | withContent (items : List (Option String)) : McpResult
  | plain : McpResult
  deriving Repr, DecidableEq

/-- Parsed body of a `tools/call` HTTP response. -/
inductive RpcBody where
  | jsonExn : RpcBody
  | result (r : McpResult) : RpcBody
  | rpcError (code : Option Int) (message : Option String) : RpcBody
  | other : RpcBody
  deriving Repr, DecidableEq

/-- Outcome of the `tools/call` network call: transport exception or HTTP
response. -/
inductive ToolNet where
  | exn (msg : String) : ToolNet
  | http (status : Nat) (body : RpcBody) : ToolNet
  deriving Repr, DecidableEq

/-- The value stored under the `result` key of `call_tool`'s return dict:
either the first content item's text, or the raw MCP result object. -/
inductive ToolPayload where
  | text (s : String) : ToolPayload
  | raw (r : McpResult) : ToolPayload
  deriving Repr, DecidableEq

/-- The dictionary returned by `MCPToolsService.call_tool`, as a record of its
possible keys (`none` = key absent). -/
structure ToolCallResult where
  result : Option ToolPayload
  error : Option String
  code : Option Int
  status_code : Option Nat
  response_echo : Bool
  deriving Repr, DecidableEq

/-- A `call_tool` dict holding only an `error` key. -/
def toolErr (e : String) : ToolCallResult :=
  { result := none, error := some e, code := none, status_code := none, response_echo := false }

/-- A `call_tool` dict holding only a `result` key. -/
def toolOk (p : ToolPayload) : ToolCallResult :=
  { result := some p, error := none, code := none, status_code := none, response_echo := false }

/-- `MCPToolsService.call_tool(server_id, tool_name, parameters)`: re-resolve
the provider row, check ownership (`str(server.user_id) != str(self.user_id)`)
and the active flag, then issue `tools/call` and normalize every outcome into
one dict with a `result` or an `error` key.  The surrounding `try/except`
turns any exception (transport or JSON decoding) into an `error` dict, so the
Python function never raises. -/
def call_tool (db : DB) (user_id : String) (_user_token : Option String)
    (server_id : String) (tool_name : String) (net : ToolNet) : ToolCallResult :=
  match get_mcp_server db server_id with
  | none => toolErr "MCP server not found"
  | some server =>
    if server.user_id != user_id then toolErr "Access denied to this MCP server"
    else if !server.is_active then toolErr "MCP server is not active"
    else
      match net with
      | .exn msg => toolErr ("Error calling tool " ++ tool_name ++ ": " ++ msg)
      | .http status body =>
        if status == 200 then
          match body with
          | .jsonExn => toolErr ("Error calling tool " ++ tool_name ++ ": JSONDecodeError")
          | .result r =>
            match r with
            | .withContent items =>
              match items with
              | [] => toolOk (.raw (.withContent []))
              | item :: _ => toolOk (.text (item.getD ""))
            | .plain => toolOk (.raw .plain)
          | .rpcError code message =>
            { result := none, error := some (message.getD "Unknown error"), code := code
              status_code := none, response_echo := false }
          | .other =>
            { result := none, error := some "Unexpected response format", code := none
              status_code := none, response_echo := true }
        else
          { result := none, error := some ("Tool execution failed: " ++ toString status)
            code := none, status_code := some status, response_echo := false }

/-- The `OpenAIConversationService` object: the state it is constructed with
(`openai_service.py`, `__init__`). -/
structure OpenAIConversationService where
  api_key : String
  model : String
  deriving Repr, DecidableEq

/-- `OpenAIConversationService(api_key)` with the default model argument. -/
def mkOpenAIService (api_key : String) : OpenAIConversationService :=
  { api_key := api_key, model := "gpt-3.5-turbo" }

/-- `openai_service.get_openai_service(api_key)` with the module-global
`_openai_service` passed explicitly: construct on first call, return the
cached instance afterwards.  The pair is (returned service, new global). -/
def get_openai_service (state : Option OpenAIConversationService) (api_key : String) :
    OpenAIConversationService × Option OpenAIConversationService :=
  match state with
  | none =>
    let s := mkOpenAIService api_key
    (s, some s)
  | some s => (s, some s)

/-- The function-call directive a model reply may carry; `args_ok` records
whether `json.loads` of its `arguments` string succeeds. -/
structure FunctionCallDirective where
  name : String
  args_ok : Bool
  deriving Repr, DecidableEq

/-- Outcome of one `_call_openai_api` invocation: a reply (content, total
token usage, optional function-call directive), or a raised `ValueError`
(every exception branch of `_call_openai_api` re-raises as `ValueError`). -/
inductive ApiOutcome where
  | ok (content : Option String) (tokens : Nat) (fcall : Option FunctionCallDirective) : ApiOutcome
  | fail (msg : String) : ApiOutcome
  deriving Repr, DecidableEq

/-- Environment of one `send_message` run: the discovery outcome per provider
id, and the outcomes of the up-to-three model calls and the one tool call it
can make. -/
structure SendEnv where
  list_net : String → ListNet
  first_call : ApiOutcome
  tool_net : ToolNet
  second_call : ApiOutcome
  plain_call : ApiOutcome

/-- The `tool_map` dict built in `send_message`: one insertion per discovered
tool, keyed by the tool name, holding the owning server id (the stored tool
name equals the key). -/
def tool_map (available : List ServerTools) : List (Option String × String) :=
  available.flatMap (fun sd => sd.tools.map (fun t => (t.name, sd.server_id)))

/-- Python dict lookup over an insertion sequence: the LAST insertion of a key
wins. -/
def dict_lookup (m : List (Option String × String)) (k : Option String) : Option String :=
  (m.reverse.find? (fun p => p.1 == k)).map (fun p => p.2)

/-- The message list `send_message` loads to build model context
(`openai_service.py` line 117): `crud.get_conversation_messages(db,
conversation_id=conversation_id)` with all remaining parameters left at their
Python defaults `skip=0, limit=100, role=None`. -/
def send_message_context (db : DB) (conversation_id : String) : List ChatMessage :=
  get_conversation_messages db conversation_id 0 100 none

/-- The apology sentence `send_message` synthesizes when the invoked tool
reports an error. -/
def apologyIntro : String := "I tried to get that information but encountered an error: "

/-- Result dict of a successful `send_message`. -/
structure SendSuccess where
  user_message : ChatMessage
  ai_message : ChatMessage
  conversation_id : String
  deriving Repr, DecidableEq

/-- `OpenAIConversationService.send_message`: verify the conversation exists
and is active, persist the user message, load the context, run the MCP tool
branch when a user id is present, fall back to a plain model call when that
branch produced no content, persist the assistant message, and return both
messages.  Raised `ValueError`s become `Except.error`; the second component
is the database state when the call returns or raises. -/
def send_message (db : DB) (conversation_id content role : String)
    (user_id : Option String) (user_token : Option String) (env : SendEnv) :
    Except String SendSuccess × DB :=
  match get_conversation db conversation_id with
  | none => (.error "Conversation not found", db)
  | some conv =>
    if conv.status != "active" then (.error "Conversation is not active", db)
    else
      let userPair := create_message db conversation_id role (some content) none none
      let saved_user_message := userPair.1
      let db1 := userPair.2
      let _history := send_message_context db1 conversation_id
      -- MCP tool integration: the value of `response_content`, `tokens_used`
      -- and `response_metadata` after the `if user_id:` block.  `none` means
      -- `response_content is None`, which triggers the plain fallback call.
      -- The inner `except Exception` of the block maps a failed first model
      -- call, malformed function arguments, and an unknown function name all
      -- to `response_content = None`.
      let mcpOut : Option (Option String × Option Nat × MetaInfo) :=
        match user_id with
        | none => none
        | some uid =>
          let available := get_available_tools db1 uid env.list_net
          if available.isEmpty then none
          else
            match env.first_call with
            | .fail _ => none
            | .ok c tok fc =>
              match fc with
              | none =>
                some (c, some tok, { mcp_tool_used := some false, tool_name := none, server_id := none })
              | some d =>
                if !d.args_ok then none
                else
                  match dict_lookup (tool_map available) (some d.name) with
                  | none => none
                  | some sid =>
                    let tr := call_tool db1 uid user_token sid d.name env.tool_net
                    match tr.error with
                    | some err =>
                      some (some (apologyIntro ++ err), none,
                        { mcp_tool_used := some true, tool_name := some d.name, server_id := some sid })
                    | none =>
                      match env.second_call with
                      | .fail _ => none
                      | .ok c2 tok2 _ =>
                        some (c2, some (tok + tok2),
                          { mcp_tool_used := some true, tool_name := some d.name, server_id := some sid })
      match mcpOut with
      | some (some rc, tu, meta) =>
        let aiPair := create_message db1 conversation_id "assistant" (some rc) tu (some meta)
        (.ok { user_message := saved_user_message, ai_message := aiPair.1
               conversation_id := conversation_id }, aiPair.2)
      | other =>
        match env.plain_call with
        | .fail msg => (.error msg, db1)
        | .ok c tok _ =>
          let meta :=
            match other with
            | some (_, _, m) => m
            | none => { mcp_tool_used := none, tool_name := none, server_id := none }
          let aiPair := create_message db1 conversation_id "assistant" c (some tok) (some meta)
          (.ok { user_message := saved_user_message, ai_message := aiPair.1
                 conversation_id := conversation_id }, aiPair.2)

/-- `websocket/chat_handler.py` `ConnectionManager`: websockets are modelled
as numeric handles; the two dicts are insertion-ordered association lists, as
Python dicts are. -/
structure ConnectionManager where
  active_connections : List Nat
  user_connections : List (String × List Nat)
  conversation_connections : List (String × List Nat)
  deriving Repr, DecidableEq

/-- Python `list.remove(x)`: drop the first occurrence, raise `ValueError`
when absent. -/
def listRemove : List Nat → Nat → Except String (List Nat)
  | [], _ => .error "ValueError: list.remove of absent element"
  | y :: ys, x =>
    if y = x then .ok ys
    else do
      let r ← listRemove ys x
      pure (y :: r)

/-- Python dict read `d[k]` guarded by `k in d` (first matching key). -/
def dictGet (d : List (String × List Nat)) (k : String) : Option (List Nat) :=
  (d.find? (fun p => p.1 == k)).map (fun p => p.2)

/-- Python dict write `d[k] = v` for a key already present. -/
def dictSet (d : List (String × List Nat)) (k : String) (v : List Nat) :
    List (String × List Nat) :=
  d.map (fun p => if p.1 == k then (k, v) else p)

/-- Python `del d[k]`. -/
def dictDel (d : List (String × List Nat)) (k : String) : List (String × List Nat) :=
  d.filter (fun p => p.1 != k)

/-- `ConnectionManager.connect`: append to `active_connections`; when a user
id is given, append to (or create) that user's list. -/
def ConnectionManager.connect (cm : ConnectionManager) (ws : Nat)
    (user_id : Option String) : ConnectionManager :=
  let cm1 := { cm with active_connections := cm.active_connections ++ [ws] }
  match user_id with
  | none => cm1
  | some uid =>
    match dictGet cm1.user_connections uid with
    | some l => { cm1 with user_connections := dictSet cm1.user_connections uid (l ++ [ws]) }
    | none => { cm1 with user_connections := cm1.user_connections ++ [(uid, [ws])] }

/-- `ConnectionManager.add_to_conversation`: append to (or create) the
conversation's member list. -/
def ConnectionManager.add_to_conversation (cm : ConnectionManager) (ws : Nat)
    (conversation_id : String) : ConnectionManager :=
  match dictGet cm.conversation_connections conversation_id with
  | some l =>
    { cm with conversation_connections := dictSet cm.conversation_connections conversation_id (l ++ [ws]) }
  | none =>
    { cm with conversation_connections := cm.conversation_connections ++ [(conversation_id, [ws])] }

/-- The `for conv_id, connections in self.conversation_connections.items()`
loop of `ConnectionManager.disconnect`: remove the websocket from the FIRST
member list containing it, then `break`. -/
def removeFromFirstConversation : List (String × List Nat) → Nat → List (String × List Nat)
  | [], _ => []
  | (c, l) :: rest, ws =>
    if ws ∈ l then (c, l.erase ws) :: rest
    else (c, l) :: removeFromFirstConversation rest ws

/-- `ConnectionManager.disconnect(websocket, user_id)`: remove from the active
list (this raises when absent), remove from the given user's list and delete
the key when its list becomes empty, and run the conversation loop above. -/
def ConnectionManager.disconnect (cm : ConnectionManager) (ws : Nat)
    (user_id : Option String) : Except String ConnectionManager := do
  let act ← listRemove cm.active_connections ws
  let uc ←
    match user_id with
    | none => pure cm.user_connections
    | some uid =>
      match dictGet cm.user_connections uid with
      | none => pure cm.user_connections
      | some l => do
        let l2 ← listRemove l ws
        if l2.isEmpty then pure (dictDel cm.user_connections uid)
        else pure (dictSet cm.user_connections uid l2)
  pure
    { active_connections := act
      user_connections := uc
      conversation_connections := removeFromFirstConversation cm.conversation_connections ws }

/-- Outbound frame `schemas.WebSocketResponse`, restricted to the fields the
receive loop writes. -/
structure WebSocketResponse where
  type : String
  success : Bool
  error : Option String
  deriving Repr, DecidableEq

/-- The error frame `handle_connection` sends when `json.loads` raises on an
inbound frame. -/
def invalidJsonResponse : WebSocketResponse :=
  { type := "error", success := false, error := some "Invalid JSON format" }

/-- `WebSocketHandler.handle_connection`, viewed as the sequence of response
frames written for a given sequence of inbound frames.  An inbound frame is
`some d` when its text parses as JSON (with parsed payload `d`) and `none`
when `json.loads` raises; the list ends at the client disconnect.  `process`
stands for `self.process_message` composed with the response serialization
(it catches its own exceptions, so it always yields a frame).  The
`json.JSONDecodeError` handler sits OUTSIDE the `while True:` loop in the
source, so a malformed frame sends `invalidJsonResponse` and then leaves the
loop: the remaining inbound frames are never read. -/
def receive_loop (process : String → WebSocketResponse) :
    List (Option String) → List WebSocketResponse
  | [] => []
  | none :: _ => [invalidJsonResponse]
  | some d :: rest => process d :: receive_loop process rest

/-- `statusValue` models the Python attribute access `conversation.status.value`
in `api/routes.py` line 232.  `Conversation.status` is a plain `String(50)`
column (`engine/models.py` line 12), so its value is a Python `str`, which has
no attribute `value`: the access raises `AttributeError` for every status. -/
def statusValue (_s : String) : Except String String :=
  .error "AttributeError: str object has no attribute value"

/-- `api/routes.py` `reconnect_to_conversation(user_id, conversation_id)`
for a caller with the given username and admin flag: verify the user exists,
check access, load the conversation, check ownership, then flip an ended
conversation back to active via `update_conversation`.  `Except.error` models
a raised `HTTPException` or any other uncaught exception. -/
def reconnect_to_conversation (db : DB) (user_id conversation_id : String)
    (caller_username : String) (caller_is_admin : Bool) :
    Except String (Conversation × DB) := do
  match get_user db user_id with
  | none => .error "User not found"
  | some user =>
    if !caller_is_admin && caller_username != user.username then
      .error "Access denied: Can only reconnect to your own conversations"
    else
      match get_conversation_with_messages db conversation_id with
      | none => .error "Conversation not found"
      | some conv =>
        if !caller_is_admin && pyStr conv.user_id != user.id then
          .error "Access denied: You do not own this conversation"
        else do
          let v ← statusValue conv.status
          if v == "ended" then
            match update_conversation_status db conversation_id "active" with
            | (some c2, db2) => pure (c2, db2)
            | (none, db2) => pure (conv, db2)
          else
            pure (conv, db)

/-! ### Concrete states and environments used below -/

/-- An environment in which every external call fails; used where the
environment is irrelevant. -/
def envTriv : SendEnv :=
  { list_net := fun _ => .exn "down", first_call := .fail "api down"
    tool_net := .exn "down", second_call := .fail "api down", plain_call := .fail "api down" }

/-- The empty database. -/
def dbEmpty : DB :=
  { conversations := [], messages := [], mcp_servers := [], users := [], now := 0 }

/-- A database holding one ended conversation. -/
def dbEnded : DB :=
  { conversations := [{ id := "c", user_id := some "u", title := none, status := "ended", ended_at := some 3 }]
    messages := [], mcp_servers := [], users := [], now := 4 }

/-- A process function standing for `process_message` in concrete runs of the
receive loop. -/
def echoProcess : String → WebSocketResponse :=
  fun d => { type := "send_message", success := true, error := some d }

/-- A registry state in which websocket 1 has joined two conversations. -/
def cmTwoConvs : ConnectionManager :=
  ((({ active_connections := [], user_connections := [], conversation_connections := [] } :
    ConnectionManager).connect 1 (some "u")).add_to_conversation 1 "a").add_to_conversation 1 "b"

/-- A registry state in which websocket 5 has joined one conversation. -/
def cmOneConv : ConnectionManager :=
  (({ active_connections := [], user_connections := [], conversation_connections := [] } :
    ConnectionManager).connect 5 (some "u")).add_to_conversation 5 "conv"

/-- The registry state `disconnect` actually produces from `cmTwoConvs`:
websocket 1 is still a member of conversation b. -/
def cmAfterTwo : ConnectionManager :=
  { active_connections := [], user_connections := []
    conversation_connections := [("a", []), ("b", [1])] }

/-- The i-th of the one hundred messages already persisted in `dbC3`. -/
def oldMsg (i : Nat) : ChatMessage :=
  { id := "h:c:user:x" ++ toString i, conversation_id := "c", role := "user"
    content := some ("x" ++ toString i), timestamp := i, tokens_used := none, meta := none }

/-- A database whose single active conversation already holds one hundred
messages (timestamps 0 to 99, clock at 100). -/
def dbC3 : DB :=
  { conversations := [{ id := "c", user_id := some "u", title := none, status := "active", ended_at := none }]
    messages := (List.range 100).map oldMsg
    mcp_servers := [], users := [], now := 100 }

/-- A database with an ended and an archived conversation owned by user u1. -/
def dbC5 : DB :=
  { conversations :=
      [ { id := "c1", user_id := some "u1", title := none, status := "ended", ended_at := some 5 }
      , { id := "c2", user_id := some "u1", title := none, status := "archived", ended_at := none } ]
    messages := [], mcp_servers := [], users := [{ id := "u1", username := "alice" }], now := 9 }

/-- A database with one active conversation of user 7 who owns one active MCP
provider. -/
def dbC1 : DB :=
  { conversations := [{ id := "c", user_id := some "7", title := none, status := "active", ended_at := none }]
    messages := []
    mcp_servers := [{ id := "s1", user_id := "7", name := "Timezone MCP Server"
                      server_url := "http://localhost:8003/mcp", api_key := none, is_active := true }]
    users := [], now := 0 }

/-- An environment in which discovery finds one tool, the model elects to call
it, and the tool invocation then fails with a transport exception. -/
def envC1 : SendEnv :=
  { list_net := fun _ => .http 200 (.toolsOk
      [{ name := some "get_current_time", description := some "Get current time"
         params := [("timezone", "string")] }])
    first_call := .ok none 5 (some { name := "get_current_time", args_ok := true })
    tool_net := .exn "connection refused"
    second_call := .ok (some "unused") 0 none
    plain_call := .ok (some "unused") 0 none }

/-- A database where user 9 owns two active MCP providers. -/
def dbC8 : DB :=
  { conversations := [], messages := []
    mcp_servers :=
      [ { id := "s1", user_id := "9", name := "A", server_url := "http://a", api_key := none, is_active := true }
      , { id := "s2", user_id := "9", name := "B", server_url := "http://b", api_key := none, is_active := true } ]
    users := [], now := 0 }

/-- Discovery environment in which provider s1 times out and provider s2
answers with one tool. -/
def envC8 : String → ListNet := fun sid =>
  if sid == "s1" then .exn "timeout"
  else .http 200 (.toolsOk [{ name := some "t2", description := none, params := [] }])

/-- First message of the two-message conversation in `dbC9`. -/
def msgA : ChatMessage :=
  { id := "m1", conversation_id := "c", role := "user", content := some "a"
    timestamp := 1, tokens_used := none, meta := none }

/-- Second message of the two-message conversation in `dbC9`. -/
def msgB : ChatMessage :=
  { id := "m2", conversation_id := "c", role := "assistant", content := some "b"
    timestamp := 2, tokens_used := none, meta := none }

/-- A database with one conversation holding two messages. -/
def dbC9 : DB :=
  { conversations := [{ id := "c", user_id := some "u", title := none, status := "active", ended_at := none }]
    messages := [msgA, msgB], mcp_servers := [], users := [], now := 3 }

/-- The error payload of an `Except`, if any. -/
def errMsg {α : Type} : Except String α → Option String
  | .error e => some e
  | .ok _ => none

/-! ### Helper lemmas -/

theorem sortAsc_pairwise (l : List ChatMessage) :
    (List.insertionSort msgLE l).Pairwise msgLE :=
  List.sorted_insertionSort msgLE l

theorem sortAsc_perm (l : List ChatMessage) : (List.insertionSort msgLE l).Perm l :=
  List.perm_insertionSort msgLE l

theorem sortDesc_pairwise (l : List ChatMessage) :
    (List.insertionSort msgGE l).Pairwise msgGE :=
  List.sorted_insertionSort msgGE l

theorem sortDesc_perm (l : List ChatMessage) : (List.insertionSort msgGE l).Perm l :=
  List.perm_insertionSort msgGE l

/-! ### Claim C10 -/

/-- C10: `get_openai_service` is a process-wide memoized singleton.  From the
empty global it constructs the service with the given key and caches it; from
a populated global it returns the cached instance unchanged for ANY key, so a
second call with a different key still yields the service built from the
first key. -/
theorem get_openai_service_is_memoized_singleton :
    (∀ k : String,
        get_openai_service none k = (mkOpenAIService k, some (mkOpenAIService k))
        ∧ (get_openai_service none k).1.api_key = k)
    ∧ (∀ (s : OpenAIConversationService) (k : String),
        get_openai_service (some s) k = (s, some s))
    ∧ (∀ k1 k2 : String,
        (get_openai_service ((get_openai_service none k1).2) k2).1.api_key = k1) :=
  ⟨fun _ => ⟨rfl, rfl⟩, fun _ _ => rfl, fun _ _ => rfl⟩

/-! ### Claim C2 -/

/-- C2, counterexample: a malformed inbound frame does NOT leave the receive
loop running.  With the frame sequence [malformed, valid] the loop output is
exactly the error frame: it does not equal the output the claim demands,
namely the error frame followed by the handling of the valid frame. -/
theorem receive_loop_does_not_continue_after_malformed :
    ¬ (receive_loop echoProcess [none, some "x"] =
        invalidJsonResponse :: receive_loop echoProcess [some "x"]) := by
  decide

/-- C2, amended: whenever frame k+1 of a connection is the first malformed
frame, the loop handles the k valid frames before it, then sends the
structured error frame (type error, success false) for the malformed one and
terminates: every frame after the malformed one goes unread, because the
`json.JSONDecodeError` handler sits outside the `while True:` loop. -/
theorem receive_loop_malformed_frame_emits_error_and_terminates
    (process : String → WebSocketResponse) (pre : List String)
    (rest : List (Option String)) :
    receive_loop process (pre.map some ++ none :: rest) =
      pre.map process ++ [invalidJsonResponse] := by
  induction pre with
  | nil => rfl
  | cons a t ih => simpa [receive_loop] using ih

/-! ### Claim C6 -/

/-- C6: `send_message` fails with the NotFound error when the conversation is
absent and with the InvalidState error when its status is not active, and in
both cases it returns the database unchanged: the failure happens before any
message is persisted. -/
theorem send_message_precondition_failures
    (db : DB) (cid content role : String) (uid token : Option String) (env : SendEnv) :
    (get_conversation db cid = none →
      send_message db cid content role uid token env = (.error "Conversation not found", db))
    ∧ (∀ conv, get_conversation db cid = some conv → conv.status ≠ "active" →
      send_message db cid content role uid token env = (.error "Conversation is not active", db)) := by
  constructor
  · intro h
    simp [send_message, h]
  · intro conv h hs
    simp [send_message, h, bne_iff_ne, hs]

/-- C6, witness: concrete instances of both failure cases. -/
theorem send_message_precondition_failures_witness :
    (get_conversation dbEmpty "c" = none
      ∧ send_message dbEmpty "c" "hi" "user" none none envTriv =
          (.error "Conversation not found", dbEmpty))
    ∧ (get_conversation dbEnded "c" =
        some { id := "c", user_id := some "u", title := none, status := "ended", ended_at := some 3 }
      ∧ send_message dbEnded "c" "hi" "user" none none envTriv =
          (.error "Conversation is not active", dbEnded)) :=
  ⟨⟨by decide,
    (send_message_precondition_failures dbEmpty "c" "hi" "user" none none envTriv).1 (by decide)⟩,
   ⟨by decide,
    (send_message_precondition_failures dbEnded "c" "hi" "user" none none envTriv).2
      { id := "c", user_id := some "u", title := none, status := "ended", ended_at := some 3 }
      (by decide) (by decide)⟩⟩

/-! ### Claim C7 -/

/-- C7: `call_tool` re-resolves the provider at invocation time and yields an
error result when it is missing, not owned by the caller, or inactive; and
every outcome is normalized into one dictionary shape carrying exactly one of
a result key or an error key.  The embedding is a total function because every
exception path of the Python function is caught and turned into an error
dict. -/
theorem call_tool_uniform_result_and_guards
    (db : DB) (uid : String) (token : Option String) (sid tname : String) (net : ToolNet) :
    (((call_tool db uid token sid tname net).result.isSome
        ∧ (call_tool db uid token sid tname net).error = none)
      ∨ ((call_tool db uid token sid tname net).error.isSome
        ∧ (call_tool db uid token sid tname net).result = none))
    ∧ (get_mcp_server db sid = none →
        (call_tool db uid token sid tname net).error = some "MCP server not found")
    ∧ (∀ server, get_mcp_server db sid = some server → server.user_id ≠ uid →
        (call_tool db uid token sid tname net).error = some "Access denied to this MCP server")
    ∧ (∀ server, get_mcp_server db sid = some server → server.user_id = uid →
        server.is_active = false →
        (call_tool db uid token sid tname net).error = some "MCP server is not active") := by
  refine ⟨?_, ?_, ?_, ?_⟩
  · rcases hget : get_mcp_server db sid with _ | server
    · simp [call_tool, hget, toolErr]
    · by_cases ho : server.user_id = uid
      · by_cases ha : server.is_active
        · rcases net with m | ⟨status, body⟩
          · simp [call_tool, hget, ho, ha, toolErr]
          · by_cases h200 : status = 200
            · subst h200
              rcases body with _ | r | ⟨c, m2⟩ | _
              · simp [call_tool, hget, ho, ha, toolErr]
              · rcases r with items | _
                · rcases items with _ | ⟨a, t⟩
                  · simp [call_tool, hget, ho, ha, toolOk]
                  · simp [call_tool, hget, ho, ha, toolOk]
                · simp [call_tool, hget, ho, ha, toolOk]
              · simp [call_tool, hget, ho, ha]
              · simp [call_tool, hget, ho, ha]
            · simp [call_tool, hget, ho, ha, h200]
        · simp [call_tool, hget, ho, ha, toolErr]
      · simp [call_tool, hget, ho, toolErr, bne_iff_ne]
  · intro h
    simp [call_tool, h, toolErr]
  · intro server h hne
    simp [call_tool, h, toolErr, bne_iff_ne, hne]
  · intro server h heq hact
    simp [call_tool, h, heq, hact, toolErr]

/-- C7, witness: the three guards and the uniform shape at concrete inputs
(provider missing in the empty database; provider s1 of `dbC1` invoked by a
non-owner; and the shape disjunction for a transport failure). -/
theorem call_tool_uniform_result_and_guards_witness :
    ((call_tool dbEmpty "u" none "s" "t" (.exn "down")).error = some "MCP server not found")
    ∧ ((call_tool dbC1 "8" none "s1" "t" (.exn "down")).error =
        some "Access denied to this MCP server")
    ∧ (((call_tool dbC1 "7" none "s1" "t" (.exn "down")).result.isSome
          ∧ (call_tool dbC1 "7" none "s1" "t" (.exn "down")).error = none)
        ∨ ((call_tool dbC1 "7" none "s1" "t" (.exn "down")).error.isSome
          ∧ (call_tool dbC1 "7" none "s1" "t" (.exn "down")).result = none)) :=
  ⟨(call_tool_uniform_result_and_guards dbEmpty "u" none "s" "t" (.exn "down")).2.1 (by decide),
   (call_tool_uniform_result_and_guards dbC1 "8" none "s1" "t" (.exn "down")).2.2.1
      { id := "s1", user_id := "7", name := "Timezone MCP Server"
        server_url := "http://localhost:8003/mcp", api_key := none, is_active := true }
      (by decide) (by decide),
   (call_tool_uniform_result_and_guards dbC1 "7" none "s1" "t" (.exn "down")).1⟩

/-! ### Claim C9 -/

/-- C9: every read path returns a conversation's messages in ascending
creation-time order.  `get_conversation_messages` orders ascending directly;
`get_recent_messages` — the descending LIMIT query — returns the most recent
`lim` messages of the conversation reversed back into ascending order: its
output is ascending, consists of exactly `min lim count` messages of the
conversation, and every message of the conversation it leaves out is no newer
than any message it returns. -/
theorem message_read_paths_are_ascending :
    (∀ (db : DB) (cid : String) (skip lim : Nat) (role : Option String),
      (get_conversation_messages db cid skip lim role).Pairwise msgLE)
    ∧ (∀ (db : DB) (cid : String) (lim : Nat),
      (get_recent_messages db cid lim).Pairwise msgLE)
    ∧ (∀ (db : DB) (cid : String) (lim : Nat),
      (get_recent_messages db cid lim).length =
          min lim (conversationMessagesQuery db cid none).length
        ∧ ∀ m ∈ get_recent_messages db cid lim, m ∈ conversationMessagesQuery db cid none)
    ∧ (∀ (db : DB) (cid : String) (lim : Nat) (m m2 : ChatMessage),
        m ∈ get_recent_messages db cid lim →
        m2 ∈ conversationMessagesQuery db cid none →
        m2 ∉ get_recent_messages db cid lim →
        m2.timestamp ≤ m.timestamp) := by
  refine ⟨?_, ?_, ?_, ?_⟩
  · intro db cid skip lim role
    exact (sortAsc_pairwise _).sublist
      ((List.take_sublist _ _).trans (List.drop_sublist _ _))
  · intro db cid lim
    unfold get_recent_messages
    rw [List.pairwise_reverse]
    exact ((sortDesc_pairwise _).sublist (List.take_sublist _ _)).imp (fun h => h)
  · intro db cid lim
    constructor
    · unfold get_recent_messages
      rw [List.length_reverse, List.length_take, (sortDesc_perm _).length_eq]
    · intro m hm
      unfold get_recent_messages at hm
      rw [List.mem_reverse] at hm
      exact (sortDesc_perm _).mem_iff.mp ((List.take_sublist _ _).subset hm)
  · intro db cid lim m m2 hm hm2 hnot
    unfold get_recent_messages at hm hnot
    rw [List.mem_reverse] at hm hnot
    have hmem : m2 ∈ List.insertionSort msgGE (conversationMessagesQuery db cid none) :=
      (sortDesc_perm _).mem_iff.mpr hm2
    have hsplit :
        (List.insertionSort msgGE (conversationMessagesQuery db cid none)).take lim ++
          (List.insertionSort msgGE (conversationMessagesQuery db cid none)).drop lim =
          List.insertionSort msgGE (conversationMessagesQuery db cid none) :=
      List.take_append_drop lim _
    have hdrop :
        m2 ∈ (List.insertionSort msgGE (conversationMessagesQuery db cid none)).drop lim := by
      rcases List.mem_append.mp (by rw [hsplit]; exact hmem) with h | h
      · exact absurd h hnot
      · exact h
    have hp :
        ((List.insertionSort msgGE (conversationMessagesQuery db cid none)).take lim ++
          (List.insertionSort msgGE (conversationMessagesQuery db cid none)).drop lim).Pairwise
          msgGE := by
      rw [hsplit]
      exact sortDesc_pairwise _
    exact (List.pairwise_append.mp hp).2.2 m hm m2 hdrop

/-- C9, witness: in the two-message conversation of `dbC9`, the recent-query
of size one returns the newer message, omits the older one, and the omitted
message is indeed no newer. -/
theorem message_read_paths_are_ascending_witness :
    msgB ∈ get_recent_messages dbC9 "c" 1
    ∧ msgA ∈ conversationMessagesQuery dbC9 "c" none
    ∧ msgA ∉ get_recent_messages dbC9 "c" 1
    ∧ msgA.timestamp ≤ msgB.timestamp :=
  ⟨by decide, by decide, by decide,
    message_read_paths_are_ascending.2.2.2 dbC9 "c" 1 msgB msgA (by decide) (by decide) (by decide)⟩

/-! ### Claim C8 -/

theorem discover_failed_nil (s : MCPServer) (net : ListNet)
    (h : listCallFailed net = true) : discover_server_tools s net = [] := by
  rcases net with m | ⟨status, body⟩
  · rfl
  · by_cases h200 : status = 200
    · subst h200
      rcases body with _ | ts | _
      · rfl
      · simp [listCallFailed] at h
      · rfl
    · simp [discover_server_tools, h200]

theorem gather_available_mem_ids (env : String → ListNet) (servers : List MCPServer) :
    ∀ e ∈ gather_available env servers,
      ∃ s ∈ servers, e.server_id = s.id ∧ discover_server_tools s (env s.id) ≠ [] := by
  induction servers with
  | nil =>
    intro e he
    simp [gather_available] at he
  | cons s rest ih =>
    intro e he
    unfold gather_available at he
    by_cases hts : (discover_server_tools s (env s.id)).isEmpty
    · rw [if_pos hts] at he
      obtain ⟨s2, hs2, heq, hne⟩ := ih e he
      exact ⟨s2, List.mem_cons_of_mem s hs2, heq, hne⟩
    · rw [if_neg hts] at he
      rcases List.mem_cons.mp he with h | h
      · subst h
        exact ⟨s, List.mem_cons_self s rest, rfl, by
          intro hnil
          rw [hnil] at hts
          exact hts rfl⟩
      · obtain ⟨s2, hs2, heq, hne⟩ := ih e h
        exact ⟨s2, List.mem_cons_of_mem s hs2, heq, hne⟩

theorem gather_available_mem_of_tools (env : String → ListNet) (servers : List MCPServer)
    (s : MCPServer) (hs : s ∈ servers) (hne : discover_server_tools s (env s.id) ≠ []) :
    ({ server_id := s.id, server_name := s.name, server_url := s.server_url
       api_key := s.api_key, tools := discover_server_tools s (env s.id) } : ServerTools) ∈
      gather_available env servers := by
  induction servers with
  | nil => cases hs
  | cons t rest ih =>
    rcases List.mem_cons.mp hs with h | h
    · subst h
      unfold gather_available
      rw [if_neg (by simpa [List.isEmpty_iff] using hne)]
      exact List.mem_cons_self _ _
    · unfold gather_available
      by_cases hts : (discover_server_tools t (env t.id)).isEmpty
      · rw [if_pos hts]
        exact ih h
      · rw [if_neg hts]
        exact List.mem_cons_of_mem _ (ih h)

theorem gather_available_length (env : String → ListNet) (servers : List MCPServer) :
    (gather_available env servers).length ≤ servers.length := by
  induction servers with
  | nil => simp [gather_available]
  | cons s rest ih =>
    unfold gather_available
    by_cases hts : (discover_server_tools s (env s.id)).isEmpty
    · rw [if_pos hts]
      exact Nat.le_succ_of_le ih
    · rw [if_neg hts]
      simpa using Nat.succ_le_succ ih

/-- C8: tool discovery never fails as a whole.  A fetched provider whose
capability-listing call fails (transport error, non-200 status, or malformed
response) is omitted from the aggregate result; a fetched provider whose call
succeeds with a non-empty tool list is present with its transformed tools; and
the aggregate is always a list of at most one entry per fetched provider (the
embedding is total because every Python failure path is an internal
`return []` or is absorbed by the `except ... continue` of the provider
loop). -/
theorem discovery_isolates_provider_failures
    (db : DB) (uid : String) (env : String → ListNet) :
    (((get_user_mcp_servers db uid 0 100 true).map (fun s => s.id)).Nodup →
      ∀ s ∈ get_user_mcp_servers db uid 0 100 true, listCallFailed (env s.id) = true →
        s.id ∉ (get_available_tools db uid env).map (fun e => e.server_id))
    ∧ (∀ s ∈ get_user_mcp_servers db uid 0 100 true, ∀ ts,
        env s.id = .http 200 (.toolsOk ts) → ts ≠ [] →
        ({ server_id := s.id, server_name := s.name, server_url := s.server_url
           api_key := s.api_key
           tools := ts.map (fun t =>
             { name := t.name, description := t.description, parameters := t.params }) } :
          ServerTools) ∈ get_available_tools db uid env)
    ∧ (get_available_tools db uid env).length ≤ (get_user_mcp_servers db uid 0 100 true).length := by
  refine ⟨?_, ?_, ?_⟩
  · intro hnodup s hs hfail hmem
    obtain ⟨e, he, hid⟩ := List.mem_map.mp hmem
    obtain ⟨s2, hs2, heq, hne⟩ := gather_available_mem_ids env _ e he
    have hss : s2 = s :=
      List.inj_on_of_nodup_map hnodup hs2 hs (by rw [← heq, hid])
    rw [hss] at hne
    exact hne (discover_failed_nil s (env s.id) hfail)
  · intro s hs ts henv hne
    have hdisc : discover_server_tools s (env s.id) =
        ts.map (fun t => { name := t.name, description := t.description, parameters := t.params }) := by
      rw [henv]
      rfl
    have hne2 : discover_server_tools s (env s.id) ≠ [] := by
      rw [hdisc]
      simpa using hne
    have := gather_available_mem_of_tools env _ s hs hne2
    rw [hdisc] at this
    exact this
  · exact gather_available_length env _

/-- C8, witness: in `dbC8` under `envC8`, the timed-out provider s1 is absent
from the aggregate while the healthy provider s2 is present with its tool. -/
theorem discovery_isolates_provider_failures_witness :
    ("s1" ∉ (get_available_tools dbC8 "9" envC8).map (fun e => e.server_id))
    ∧ ({ server_id := "s2", server_name := "B", server_url := "http://b", api_key := none
         tools := [{ name := some "t2", description := none, parameters := [] }] } :
        ServerTools) ∈ get_available_tools dbC8 "9" envC8 :=
  ⟨(discovery_isolates_provider_failures dbC8 "9" envC8).1 (by decide)
      { id := "s1", user_id := "9", name := "A", server_url := "http://a"
        api_key := none, is_active := true }
      (by decide) (by decide),
   (discovery_isolates_provider_failures dbC8 "9" envC8).2.1
      { id := "s2", user_id := "9", name := "B", server_url := "http://b"
        api_key := none, is_active := true }
      (by decide) [{ name := some "t2", description := none, params := [] }]
      (by decide) (by decide)⟩

/-! ### Claim C4 -/

theorem listRemove_spec (l : List Nat) (x : Nat) (hl : l.Nodup) (hx : x ∈ l) :
    ∃ r, listRemove l x = .ok r ∧ x ∉ r ∧ ∀ z ∈ r, z ∈ l := by
  induction l with
  | nil => cases hx
  | cons y ys ih =>
    by_cases hy : y = x
    · subst hy
      exact ⟨ys, by simp [listRemove], (List.nodup_cons.mp hl).1,
        fun z hz => List.mem_cons_of_mem _ hz⟩
    · have hx2 : x ∈ ys := by
        rcases List.mem_cons.mp hx with h | h
        · exact absurd h.symm hy
        · exact h
      obtain ⟨r, hr, hxr, hsub⟩ := ih (List.nodup_cons.mp hl).2 hx2
      refine ⟨y :: r, ?_, ?_, ?_⟩
      · simp only [listRemove, if_neg hy]
        rw [hr]
        rfl
      · intro hxx
        rcases List.mem_cons.mp hxx with h | h
        · exact hy h.symm
        · exact hxr h
      · intro z hz
        rcases List.mem_cons.mp hz with h | h
        · subst h
          exact List.mem_cons_self _ _
        · exact List.mem_cons_of_mem _ (hsub z h)

theorem removeFromFirstConversation_not_mem
    (d : List (String × List Nat)) (ws : Nat)
    (hn : ∀ p ∈ d, p.2.Nodup)
    (hone : d.Pairwise (fun p q => ws ∈ p.2 → ws ∉ q.2)) :
    ∀ p ∈ removeFromFirstConversation d ws, ws ∉ p.2 := by
  induction d with
  | nil =>
    intro p hp
    simp [removeFromFirstConversation] at hp
  | cons q rest ih =>
    intro p hp
    rcases q with ⟨c, l⟩
    unfold removeFromFirstConversation at hp
    by_cases hws : ws ∈ l
    · rw [if_pos hws] at hp
      rcases List.mem_cons.mp hp with h | h
      · subst h
        exact (hn (c, l) (List.mem_cons_self _ _)).not_mem_erase
      · exact (List.pairwise_cons.mp hone).1 p h hws
    · rw [if_neg hws] at hp
      rcases List.mem_cons.mp hp with h | h
      · subst h
        exact hws
      · exact ih (fun p2 hp2 => hn p2 (List.mem_cons_of_mem _ hp2))
          (List.pairwise_cons.mp hone).2 p h

/-- C4, counterexample: with websocket 1 joined to conversations a and b,
`disconnect` removes it from the active list, the user list, and only the
FIRST conversation member list containing it — it is still a member of
conversation b afterwards (because of the `break` in the conversation loop),
so it is not absent from every index of the registry. -/
theorem disconnect_leaves_other_conversation_memberships :
    (ConnectionManager.disconnect cmTwoConvs 1 (some "u")).toOption = some cmAfterTwo
    ∧ 1 ∈ (dictGet cmAfterTwo.conversation_connections "b").getD [] := by
  decide

/-- C4, amended: in any registry state in which the websocket occurs in the
active list, at most once per list, only under its own user key (all
invariants of states reached through `connect`), and whose member list of AT
MOST ONE conversation contains it, `disconnect` leaves it absent from every
index.  When it had joined more than one conversation, only the first
membership (in dict insertion order) is removed and the claim fails, as the
counterexample shows. -/
theorem disconnect_removes_handle
    (cm : ConnectionManager) (ws : Nat) (u : String)
    (hact : ws ∈ cm.active_connections)
    (hactn : cm.active_connections.Nodup)
    (hun : ∀ p ∈ cm.user_connections, p.2.Nodup)
    (hukey : ∀ p ∈ cm.user_connections, (p.1 = u → ws ∈ p.2) ∧ (p.1 ≠ u → ws ∉ p.2))
    (hcn : ∀ p ∈ cm.conversation_connections, p.2.Nodup)
    (hone : cm.conversation_connections.Pairwise (fun p q => ws ∈ p.2 → ws ∉ q.2)) :
    ∃ cm2, cm.disconnect ws (some u) = .ok cm2
      ∧ ws ∉ cm2.active_connections
      ∧ (∀ p ∈ cm2.user_connections, ws ∉ p.2)
      ∧ (∀ p ∈ cm2.conversation_connections, ws ∉ p.2) := by
  obtain ⟨act, hactr, hwact, _⟩ := listRemove_spec _ ws hactn hact
  have hconv := removeFromFirstConversation_not_mem cm.conversation_connections ws hcn hone
  rcases hd : dictGet cm.user_connections u with _ | l
  · refine ⟨{ active_connections := act, user_connections := cm.user_connections
              conversation_connections := removeFromFirstConversation cm.conversation_connections ws },
      ?_, hwact, ?_, hconv⟩
    · simp only [ConnectionManager.disconnect, hactr, hd, Bind.bind, Except.bind,
        Pure.pure, Except.pure]
    · intro p hp
      have hfind : cm.user_connections.find? (fun p2 => p2.1 == u) = none :=
        Option.map_eq_none.mp hd
      have hne : ¬ (p.1 == u) = true := List.find?_eq_none.mp hfind p hp
      exact (hukey p hp).2 (by simpa using hne)
  · obtain ⟨p0, hfind, h2⟩ := Option.map_eq_some.mp hd
    have hp0mem : p0 ∈ cm.user_connections := List.mem_of_find?_eq_some hfind
    have hp0key : p0.1 = u := by
      have := List.find?_some hfind
      simpa using this
    have hwl : ws ∈ l := by
      rw [← h2]
      exact (hukey p0 hp0mem).1 hp0key
    have hln : l.Nodup := by
      rw [← h2]
      exact hun p0 hp0mem
    obtain ⟨r, hr, hwr, _⟩ := listRemove_spec l ws hln hwl
    by_cases hemp : r.isEmpty
    · refine ⟨{ active_connections := act, user_connections := dictDel cm.user_connections u
                conversation_connections := removeFromFirstConversation cm.conversation_connections ws },
        ?_, hwact, ?_, hconv⟩
      · simp only [ConnectionManager.disconnect, hactr, hd, hr, Bind.bind, Except.bind,
          Pure.pure, Except.pure, hemp, if_true]
      · intro p hp
        have hpmem : p ∈ cm.user_connections := List.mem_of_mem_filter hp
        have hpne : p.1 ≠ u := by
          have := List.of_mem_filter hp
          simpa using this
        exact (hukey p hpmem).2 hpne
    · refine ⟨{ active_connections := act, user_connections := dictSet cm.user_connections u r
                conversation_connections := removeFromFirstConversation cm.conversation_connections ws },
        ?_, hwact, ?_, hconv⟩
      · simp only [ConnectionManager.disconnect, hactr, hd, hr, Bind.bind, Except.bind,
          Pure.pure, Except.pure, hemp, if_false, Bool.false_eq_true]
      · intro p hp
        obtain ⟨p3, hp3, hmap⟩ := List.mem_map.mp hp
        by_cases hk : (p3.1 == u) = true
        · rw [if_pos hk] at hmap
          rw [← hmap]
          exact hwr
        · rw [if_neg hk] at hmap
          rw [← hmap]
          exact (hukey p3 hp3).2 (by simpa using hk)

/-- C4, witness: the amended theorem applied to the single-conversation
registry state `cmOneConv`. -/
theorem disconnect_removes_handle_witness :
    ∃ cm2, cmOneConv.disconnect 5 (some "u") = .ok cm2
      ∧ 5 ∉ cm2.active_connections
      ∧ (∀ p ∈ cm2.user_connections, 5 ∉ p.2)
      ∧ (∀ p ∈ cm2.conversation_connections, 5 ∉ p.2) :=
  disconnect_removes_handle cmOneConv 5 "u" (by decide) (by decide) (by decide)
    (by decide) (by decide) (by decide)

/-! ### Claim C1 -/

/-- C1: when a discovered tool is invoked and the invocation fails — that is,
`call_tool` returns a dict with an `error` key, which is what every failure
branch of `call_tool` produces: provider missing, ownership mismatch, provider
inactive, HTTP failure, protocol-level error object and transport exception —
`send_message` still completes successfully: it returns
an ok result whose assistant message content is the apology sentence naming
the error, and the tool failure is never surfaced as a failed operation. -/
theorem send_message_tool_failure_is_successful_apology
    (db : DB) (cid content role uid : String) (token : Option String) (env : SendEnv)
    (conv : Conversation) (c : Option String) (tok : Nat) (fname sid err : String)
    (hconv : get_conversation db cid = some conv)
    (hact : conv.status = "active")
    (htools : (get_available_tools (create_message db cid role (some content) none none).2 uid
        env.list_net).isEmpty = false)
    (hfc : env.first_call = .ok c tok (some { name := fname, args_ok := true }))
    (hlook : dict_lookup (tool_map (get_available_tools
        (create_message db cid role (some content) none none).2 uid env.list_net)) (some fname) =
        some sid)
    (herr : (call_tool (create_message db cid role (some content) none none).2 uid token sid fname
        env.tool_net).error = some err) :
    ∃ res db2, send_message db cid content role (some uid) token env = (.ok res, db2)
      ∧ res.ai_message.content = some (apologyIntro ++ err)
      ∧ res.ai_message.role = "assistant"
      ∧ res.ai_message.meta =
          some { mcp_tool_used := some true, tool_name := some fname, server_id := some sid } := by
  refine ⟨{ user_message := (create_message db cid role (some content) none none).1
            ai_message := (create_message (create_message db cid role (some content) none none).2
              cid "assistant" (some (apologyIntro ++ err)) none
              (some { mcp_tool_used := some true, tool_name := some fname, server_id := some sid })).1
            conversation_id := cid },
          (create_message (create_message db cid role (some content) none none).2
            cid "assistant" (some (apologyIntro ++ err)) none
            (some { mcp_tool_used := some true, tool_name := some fname, server_id := some sid })).2,
          ?_, rfl, rfl, rfl⟩
  unfold send_message
  rw [hconv]
  simp only [hact, bne_self_eq_false, Bool.false_eq_true, if_false, htools, hfc, hlook, herr,
    Bool.not_true]

/-- C1, witness: in `dbC1` under `envC1` the tool call fails with a transport
exception and the operation still succeeds with the apology content. -/
theorem send_message_tool_failure_is_successful_apology_witness :
    ∃ res db2, send_message dbC1 "c" "what time is it" "user" (some "7") none envC1 = (.ok res, db2)
      ∧ res.ai_message.content =
          some (apologyIntro ++ "Error calling tool get_current_time: connection refused")
      ∧ res.ai_message.role = "assistant"
      ∧ res.ai_message.meta =
          some { mcp_tool_used := some true, tool_name := some "get_current_time"
                 server_id := some "s1" } :=
  send_message_tool_failure_is_successful_apology dbC1 "c" "what time is it" "user" "7" none envC1
    { id := "c", user_id := some "7", title := none, status := "active", ended_at := none }
    none 5 "get_current_time" "s1" "Error calling tool get_current_time: connection refused"
    (by decide) (by decide) (by decide) (by decide) (by decide) (by decide)

/-! ### Claim C3 -/

/-- C3, counterexample: with one hundred messages already persisted in the
conversation, the context `send_message` loads (the first hundred in
ascending order, because of the default `limit=100`) does NOT contain the
just-persisted user message, and it has a hundred entries while the full
history has a hundred and one: the model context is not the full ordered
message history. -/
theorem send_context_truncates_at_default_limit :
    ((create_message dbC3 "c" "user" (some "new question") none none).1 ∉
        send_message_context (create_message dbC3 "c" "user" (some "new question") none none).2 "c")
    ∧ (send_message_context
        (create_message dbC3 "c" "user" (some "new question") none none).2 "c").length = 100
    ∧ (conversationMessagesQuery
        (create_message dbC3 "c" "user" (some "new question") none none).2 "c" none).length = 101 := by
  decide

/-- C3, amended: the context `send_message` builds is the conversation's
message history sorted ascending by creation time truncated to the first one
hundred rows by the unstated default `limit=100` of
`get_conversation_messages`.  Whenever the conversation (with the
just-persisted user message counted) holds at most one hundred messages, this
is exactly the claimed full ordered history including the just-persisted
message; beyond that the context is truncated, as the counterexample shows. -/
theorem send_context_is_full_history_when_within_limit
    (db : DB) (cid content role : String)
    (hlen : (conversationMessagesQuery (create_message db cid role (some content) none none).2 cid
        none).length ≤ 100) :
    send_message_context (create_message db cid role (some content) none none).2 cid =
        List.insertionSort msgLE
          (conversationMessagesQuery (create_message db cid role (some content) none none).2 cid none)
      ∧ (create_message db cid role (some content) none none).1 ∈
          send_message_context (create_message db cid role (some content) none none).2 cid
      ∧ (send_message_context (create_message db cid role (some content) none none).2 cid).Pairwise
          msgLE := by
  have heq : send_message_context (create_message db cid role (some content) none none).2 cid =
      List.insertionSort msgLE
        (conversationMessagesQuery (create_message db cid role (some content) none none).2 cid none) := by
    unfold send_message_context get_conversation_messages
    rw [List.drop_zero]
    apply List.take_of_length_le
    rw [(sortAsc_perm _).length_eq]
    exact hlen
  refine ⟨heq, ?_, ?_⟩
  · rw [heq]
    apply (sortAsc_perm _).mem_iff.mpr
    apply List.mem_filter.mpr
    refine ⟨?_, ?_⟩
    · simp [create_message]
    · simp [create_message]
  · rw [heq]
    exact sortAsc_pairwise _

/-- C3, witness for the amended theorem: a three-message conversation stays
within the limit, so the context equals the full ordered history and contains
the new message. -/
theorem send_context_is_full_history_when_within_limit_witness :
    send_message_context (create_message dbC9 "c" "user" (some "q") none none).2 "c" =
        List.insertionSort msgLE
          (conversationMessagesQuery (create_message dbC9 "c" "user" (some "q") none none).2 "c" none)
      ∧ (create_message dbC9 "c" "user" (some "q") none none).1 ∈
          send_message_context (create_message dbC9 "c" "user" (some "q") none none).2 "c"
      ∧ (send_message_context (create_message dbC9 "c" "user" (some "q") none none).2 "c").Pairwise
          msgLE :=
  send_context_is_full_history_when_within_limit dbC9 "c" "q" "user" (by decide)

/-! ### Claim C5 -/

/-- C5: at the failing input — the owner reconnecting to their ended
conversation c1 — the reconnect route raises `AttributeError` (because
`conversation.status.value` is evaluated on a plain string column), so the
claimed ended→active transition never happens; and `end_conversation` stamps
status ended with a non-null end time WITHOUT checking the current status, so
it also moves the archived conversation c2 to ended, a transition the claim
rules out. -/
theorem reconnect_raises_attribute_error_and_end_is_unguarded :
    errMsg (reconnect_to_conversation dbC5 "u1" "c1" "alice" false) =
        some "AttributeError: str object has no attribute value"
    ∧ (end_conversation dbC5 "c2").1.map Conversation.status = some "ended"
    ∧ ((end_conversation dbC5 "c1").1.bind Conversation.ended_at) = some 9 := by
  decide

end ChatService
